import Mathlib

/-
Shallow embedding of the selection-resolution and matrix-generation engine of
dax (src/dax/processor_parser.py): the selection grammar functions, the
registration of iteration references, the parameter-matrix generator, the
match filter and the existing-work reconciliation, modelled as executable
Lean functions.  Python runtime errors (KeyError, IndexError, TypeError,
ValueError, UnboundLocalError) are modelled with an explicit error type.
-/

set_option autoImplicit false

/-- Python runtime error kinds that the embedded code can raise. -/
inductive PyErr where
  | keyError
  | indexError
  | typeError
  | valueError
  | unboundLocalError
  deriving DecidableEq

/-- Python values flowing through the matrix generator: artefact paths are
strings, pynone stands for the Python value None, and lists hold row
fragments and multi-valued groups. -/
inductive PyVal where
  | str : String → PyVal
  | pynone : PyVal
  | list : List PyVal → PyVal

mutual

def PyVal.decEq : (a b : PyVal) → Decidable (a = b)
  | PyVal.str a, PyVal.str b =>
    match String.decEq a b with
    | isTrue h => isTrue (by rw [h])
    | isFalse h => isFalse (by intro hh; cases hh; exact h rfl)
  | PyVal.str _, PyVal.pynone => isFalse (by intro h; cases h)
  | PyVal.str _, PyVal.list _ => isFalse (by intro h; cases h)
  | PyVal.pynone, PyVal.str _ => isFalse (by intro h; cases h)
  | PyVal.pynone, PyVal.pynone => isTrue rfl
  | PyVal.pynone, PyVal.list _ => isFalse (by intro h; cases h)
  | PyVal.list _, PyVal.str _ => isFalse (by intro h; cases h)
  | PyVal.list _, PyVal.pynone => isFalse (by intro h; cases h)
  | PyVal.list xs, PyVal.list ys =>
    match PyVal.decEqList xs ys with
    | isTrue h => isTrue (by rw [h])
    | isFalse h => isFalse (by intro hh; cases hh; exact h rfl)

def PyVal.decEqList : (xs ys : List PyVal) → Decidable (xs = ys)
  | [], [] => isTrue rfl
  | [], _ :: _ => isFalse (by intro h; cases h)
  | _ :: _, [] => isFalse (by intro h; cases h)
  | x :: xs, y :: ys =>
    match PyVal.decEq x y, PyVal.decEqList xs ys with
    | isTrue h1, isTrue h2 => isTrue (by rw [h1, h2])
    | isFalse h1, _ => isFalse (by intro hh; injection hh with hh1 hh2; exact h1 hh1)
    | isTrue _, isFalse h2 =>
      isFalse (by intro hh; injection hh with hh1 hh2; exact h2 hh2)

end

instance : DecidableEq PyVal := PyVal.decEq

/-- Lookup in a Python dict modelled as an association list: the first
binding of the key, if any. -/
def lookupD {α : Type} (d : List (String × α)) (k : String) : Option α :=
  (d.find? (fun kv => kv.1 == k)).map (fun kv => kv.2)

/-- Assignment d[k] = v on a Python dict modelled as an association list:
replaces the binding when the key is present, appends it otherwise (CPython
dicts keep insertion order). -/
def dictInsert {α : Type} (d : List (String × α)) (k : String) (v : α) :
    List (String × α) :=
  if d.any (fun kv => kv.1 == k) then
    d.map (fun kv => if kv.1 == k then (k, v) else kv)
  else d ++ [(k, v)]

/-- CPython dict equality for the unique-key association lists used here:
each map binds every key of the other to an equal value. -/
def dictEq (d1 d2 : List (String × PyVal)) : Bool :=
  d1.all (fun kv => decide (lookupD d2 kv.1 = some kv.2)) &&
  d2.all (fun kv => decide (lookupD d1 kv.1 = some kv.2))

/-- Test for the characters Python str.strip removes (the ASCII whitespace
set suffices for the directive strings handled here). -/
def isPySpace (ch : Char) : Bool :=
  ch == ' ' || ch == '\t' || ch == '\n' || ch == '\r' || ch == '\x0b' || ch == '\x0c'

/-- Python s.strip(): remove leading and trailing whitespace. -/
def pyStrip (s : String) : String :=
  String.mk (((s.toList.dropWhile isPySpace).reverse.dropWhile isPySpace).reverse)

/-- Python s.split(sep) for a one-character separator: at least one field,
empty fields preserved. -/
def pySplitChar (sep : Char) : List Char → List (List Char)
  | [] => [[]]
  | x :: rest =>
    let r := pySplitChar sep rest
    if x == sep then [] :: r
    else
      match r with
      | h :: t => (x :: h) :: t
      | [] => [[x]]

/-- Embedding of ProcessorParser._get_args: splits a directive string of the
form name or name(arg1, arg2) into the name followed by the stripped
arguments.  Mismatched parentheses raise ValueError (statement is
malformed). -/
def get_args (statement : String) : Except PyErr (List String) :=
  let cs := statement.toList
  match cs.findIdx? (fun c => c == '('), cs.findIdx? (fun c => c == ')') with
  | none, none => Except.ok [statement]
  | some li, some ri =>
      Except.ok ([String.mk (cs.take li)] ++
        (pySplitChar ',' ((cs.drop (li + 1)).take (ri - (li + 1)))).map
          (fun a => pyStrip (String.mk a)))
  | _, _ => Except.error PyErr.valueError

/-- Embedding of ProcessorParser._parse_select: a missing statement defaults
to foreach; the statement is stripped and split into arguments. -/
def parse_select (statement : Option String) : Except PyErr (List String) :=
  get_args (pyStrip (statement.getD "foreach"))

/-- Result record of the session-select parser: mode token and session
offset. -/
structure SelectSessionParameters where
  mode : String
  delta : Int
  deriving DecidableEq

/-- Python sys.maxsize on a 64-bit build, used as the unbounded delta for
first and first-with. -/
def sysMaxsize : Int := 2 ^ 63 - 1

/-- Decimal digit value of a character, if any. -/
def decDigit? (ch : Char) : Option Nat :=
  if '0' ≤ ch ∧ ch ≤ '9' then some (ch.toNat - '0'.toNat) else none

/-- Value of a run of decimal digits, none when a non-digit appears. -/
def digitsVal : List Char → Nat → Option Nat
  | [], acc => some acc
  | c :: cs, acc =>
    match decDigit? c with
    | some d => digitsVal cs (acc * 10 + d)
    | none => none

/-- Python int(s): strips whitespace, then an optional sign followed by at
least one decimal digit; anything else raises ValueError (reported by the
caller). -/
def pyInt (s : String) : Option Int :=
  match (pyStrip s).toList with
  | [] => none
  | '-' :: rest =>
    if rest.isEmpty then none else (digitsVal rest 0).map (fun n => -(n : Int))
  | '+' :: rest =>
    if rest.isEmpty then none else (digitsVal rest 0).map (fun n => (n : Int))
  | cs => (digitsVal cs 0).map (fun n => (n : Int))

/-- Embedding of ProcessorParser._parse_session_select.  A missing statement
defaults to current.  The local variable delta is only assigned for the five
recognized modes, so an unrecognized mode raises UnboundLocalError when the
result object is constructed; a missing or a non-numeric argument of prior
and prior-with raises IndexError respectively ValueError. -/
def parse_session_select (statement : Option String) :
    Except PyErr SelectSessionParameters := do
  let args ← get_args (pyStrip (statement.getD "current"))
  let a0 := args.headD ""
  if a0 = "current" then Except.ok ⟨a0, 0⟩
  else if a0 = "prior" ∨ a0 = "prior-with" then
    match args.get? 1 with
    | none => Except.error PyErr.indexError
    | some s =>
      match pyInt s with
      | none => Except.error PyErr.valueError
      | some d => Except.ok ⟨a0, d⟩
  else if a0 = "first" ∨ a0 = "first-with" then Except.ok ⟨a0, sysMaxsize⟩
  else Except.error PyErr.unboundLocalError

/-- Embedding of ProcessorParser._register_iteration_references.  The source
keeps iteration_sources in a Python set (whose iteration order is not part of
its contract, hence a Finset here) and iteration_map in a dict.  Directives
foreach without argument, one and all add the name to the sources; foreach
with an argument and from bind the name in the map; every other token falls
through all branches and registers nothing. -/
def register_iteration_references (name : String) (iteration_args : List String)
    (iteration_sources : Finset String)
    (iteration_map : List (String × String)) :
    Except PyErr (Finset String × List (String × String)) :=
  match iteration_args with
  | [] => Except.error PyErr.indexError
  | a0 :: rest =>
    if a0 = "foreach" then
      if rest.isEmpty then
        Except.ok (insert name iteration_sources, iteration_map)
      else
        Except.ok (iteration_sources, dictInsert iteration_map name (rest.headD ""))
    else if a0 = "one" then
      Except.ok (insert name iteration_sources, iteration_map)
    else if a0 = "all" then
      Except.ok (insert name iteration_sources, iteration_map)
    else if a0 = "from" then
      match rest with
      | [] => Except.error PyErr.indexError
      | r :: _ => Except.ok (iteration_sources, dictInsert iteration_map name r)
    else
      Except.ok (iteration_sources, iteration_map)

/-- Keys of the select_namespace table: the recognized artefact-select
modes. -/
def select_namespace_modes : List String :=
  ["foreach", "one", "some", "all", "from"]

/-- Keys of the select_session_namespace table: the recognized session-select
modes. -/
def select_session_namespace_modes : List String :=
  ["current", "prior", "prior-with", "first", "first-with"]

/-- Embedding of ProcessorParser._check_valid_mode for one keyword of one
input: when the keyword is present and its mode is not in the valid set, one
bad-mode error string is produced; this validation routine only returns
strings and never raises. -/
def check_valid_mode (input_category input_name keyword : String)
    (valid_modes : List String) (keyword_value : Option String) : List String :=
  match keyword_value with
  | none => []
  | some mode =>
    if mode ∈ valid_modes then []
    else ["Error: " ++ input_category ++ " " ++ input_name ++ ": " ++ keyword ++
          " has an invalid value " ++ mode]

/-- Fields of one parsed input record that the matrix generator reads: the
parsed select statement and the required flag. -/
structure PInput where
  select : List String
  required : Bool
  deriving DecidableEq

/-- Association list from artefact path to the recorded input mapping of the
backing entity (the result of entity.get_inputs(), which is None when the
entity has no inputs field). -/
abbrev Artefacts := List (String × Option (List (String × String)))

/-- One row of the parameter matrix: a Python dict from input name to chosen
value. -/
abbrev Row := List (String × PyVal)

/-- Monadic map over a list in the Except monad, evaluated left to right and
stopping at the first error, as a Python for loop does. -/
def exMapM {α β : Type} (f : α → Except PyErr β) : List α → Except PyErr (List β)
  | [] => Except.ok []
  | x :: xs => do
    let y ← f x
    let ys ← exMapM f xs
    Except.ok (y :: ys)

/-- Python len() on a value: length of a list or a string, TypeError on
None. -/
def pyLen : PyVal → Except PyErr Nat
  | PyVal.list xs => Except.ok xs.length
  | PyVal.str s => Except.ok s.length
  | PyVal.pynone => Except.error PyErr.typeError

/-- Python v[n] for the in-range indexing done when transposing the combined
input vectors; the columns indexed here are always lists and the index stays
below the minimum length, so the other branches are unreachable. -/
def pyGet : PyVal → Nat → PyVal
  | PyVal.list xs, n => xs.getD n PyVal.pynone
  | PyVal.str s, n => PyVal.str (String.mk [s.toList.getD n ' '])
  | PyVal.pynone, _ => PyVal.pynone

/-- Python iteration over a value, as done by itertools.product over the
dimension entries and by itertools.chain.from_iterable over the fragments of
one tuple: a list yields its elements, a string yields its characters as
one-character strings, None raises TypeError. -/
def pyIterTop : PyVal → Except PyErr (List PyVal)
  | PyVal.list xs => Except.ok xs
  | PyVal.str s => Except.ok (s.toList.map (fun c => PyVal.str (String.mk [c])))
  | PyVal.pynone => Except.error PyErr.typeError

/-- itertools.product of the dimension entries: the first dimension varies
slowest and the last varies fastest. -/
def pyProduct : List (List PyVal) → List (List PyVal)
  | [] => [[]]
  | d :: ds => d.flatMap (fun x => (pyProduct ds).map (fun t => x :: t))

/-- Python min() over a nonempty list of lengths. -/
def listMin : List Nat → Nat
  | [] => 0
  | x :: xs => xs.foldl Nat.min x

/-- Lines 762 to 769 of processor_parser.py: an input with an empty candidate
list gets the single-element list holding None (the expression
list().append(None) evaluates to None, so the bracketed literal is the list
containing None); other inputs keep their candidate paths.  The sanitised
dict is only read at keys that belong to inputs. -/
def sanitised_input (abi : String → List String) (i : String) : List PyVal :=
  if (abi i).isEmpty then [PyVal.pynone] else (abi i).map PyVal.str

/-- Per governing candidate of a from dependent (lines 808 to 817 of
processor_parser.py): look the candidate path up in the artefact catalog,
query the backing entity for its recorded input mapping, and read the child
field; entities whose mapping is None are skipped, a missing catalog entry or
child field raises KeyError. -/
def fromColumnGo (artefacts : Artefacts) (child : String) :
    List PyVal → Except PyErr (List PyVal)
  | [] => Except.ok []
  | fa :: rest => do
    let ent ← match fa with
      | PyVal.str s =>
        match lookupD artefacts s with
        | some e => Except.ok e
        | none => Except.error PyErr.keyError
      | _ => Except.error PyErr.keyError
    match ent with
    | none => fromColumnGo artefacts child rest
    | some fi =>
      match lookupD fi child with
      | none => Except.error PyErr.keyError
      | some v => do
        let tl ← fromColumnGo artefacts child rest
        Except.ok (PyVal.str v :: tl)

/-- Lines 797 to 820 of processor_parser.py: walk iteration_map in order and
attach to source i the dependents it governs.  A grouped foreach dependent
contributes its own sanitised candidate list as a column; a from dependent
contributes the column of child values derived from the candidates of i (its
reference string must split into exactly a parent and a child part).
Returns the attached names and their columns in map order; the child half of
the pair pr is only meaningful for from dependents. -/
def attachDependents (inputs : List (String × PInput)) (artefacts : Artefacts)
    (abi : String → List String) (i : String) :
    List (String × String) → Except PyErr (List String × List PyVal)
  | [] => Except.ok ([], [])
  | (k, v) :: rest => do
    let spec ← match lookupD inputs k with
      | some s => Except.ok s
      | none => Except.error PyErr.keyError
    let selk ← match spec.select with
      | [] => Except.error PyErr.indexError
      | s0 :: _ => Except.ok s0
    let pr ← if selk = "foreach" then Except.ok (v, "")
      else match (pySplitChar '/' v.toList).map String.mk with
        | [p, c] => Except.ok (p, c)
        | _ => Except.error PyErr.valueError
    if pr.1 = i then do
      let col ← if selk = "foreach" then
          Except.ok (PyVal.list (sanitised_input abi k))
        else do
          let mv ← fromColumnGo artefacts pr.2 (sanitised_input abi i)
          Except.ok (PyVal.list mv)
      let tlp ← attachDependents inputs artefacts abi i rest
      Except.ok (k :: tlp.1, col :: tlp.2)
    else attachDependents inputs artefacts abi i rest

/-- Lines 771 to 842 of processor_parser.py, the body of the loop over
iteration_sources for one source i: build the artefact vector for the select
mode of i and, when i expands with foreach, attach the dependent columns,
truncate to the shortest column and transpose into per-row fragments.  The
some branch always raises: select at index 1 is the unconverted argument
string and Python min of an int and a str is a TypeError (an argumentless
some raises IndexError); the branch is in fact unreachable from the parser
because some inputs are never registered as iteration sources.  An
unrecognized mode leaves the vector as None, which later raises TypeError
when the product iterates it. -/
def dimensionFor (inputs : List (String × PInput))
    (iteration_map : List (String × String)) (artefacts : Artefacts)
    (abi : String → List String) (i : String) :
    Except PyErr (List String × PyVal) := do
  let spec ← match lookupD inputs i with
    | some s => Except.ok s
    | none => Except.error PyErr.keyError
  let selfn ← match spec.select with
    | [] => Except.error PyErr.indexError
    | s0 :: _ => Except.ok s0
  let curOpt ← (if selfn = "foreach" then
      Except.ok (some (PyVal.list (sanitised_input abi i)))
    else if selfn = "all" then
      Except.ok (some (PyVal.list [PyVal.list [PyVal.list (sanitised_input abi i)]]))
    else if selfn = "some" then
      (if spec.select.length ≥ 2 then Except.error PyErr.typeError
       else Except.error PyErr.indexError : Except PyErr (Option PyVal))
    else if selfn = "one" then
      Except.ok (some (PyVal.list ((sanitised_input abi i).take 1)))
    else Except.ok none)
  if selfn = "foreach" ∨ selfn = "from" then do
    let deps ← attachDependents inputs artefacts abi i iteration_map
    let combined := (curOpt.getD PyVal.pynone) :: deps.2
    let lens ← exMapM pyLen combined
    let m := listMin lens
    let merged := (List.range m).map
      (fun r => PyVal.list (combined.map (fun c => pyGet c r)))
    Except.ok (i :: deps.1, PyVal.list merged)
  else
    Except.ok ([i], curOpt.getD PyVal.pynone)

/-- Lines 853 to 858 of processor_parser.py: rebuild one flattened product
tuple into a row dict keyed by the matrix headers; a header index beyond the
tuple length raises IndexError (the partially built dict is discarded by the
exception). -/
def buildRow (headers : List String) (r : List PyVal) : Except PyErr Row :=
  if headers.length ≤ r.length then
    Except.ok ((headers.zip r).foldl (fun acc p => dictInsert acc p.1 p.2) [])
  else Except.error PyErr.indexError

/-- Lines 771 to 860 of processor_parser.py after the required gate: build
one dimension per iteration source in the supplied enumeration order, take
the cartesian product across the dimensions, flatten each tuple, and rebuild
the rows as dicts keyed by the concatenated header names. -/
def gpmBody (inputs : List (String × PInput)) (iteration_sources : List String)
    (iteration_map : List (String × String)) (artefacts : Artefacts)
    (abi : String → List String) : Except PyErr (List Row) := do
  let pairs ← exMapM (dimensionFor inputs iteration_map artefacts abi) iteration_sources
  let dimLists ← exMapM pyIterTop (pairs.map (fun p => p.2))
  let tuples := pyProduct dimLists
  let matrix ← exMapM (fun t => do
      let parts ← exMapM pyIterTop t
      Except.ok parts.flatten) tuples
  let headers := (pairs.map (fun p => p.1)).flatten
  exMapM (buildRow headers) matrix

/-- Embedding of ProcessorParser.generate_parameter_matrix.  The function
receives iteration_sources as a list because the source iterates a Python
set, whose enumeration order is not part of its contract; abi stands for
artefacts_by_input.  Lines 757 to 760: if any required input has no
candidates, the empty matrix is returned at once as a normal value. -/
def generate_parameter_matrix (inputs : List (String × PInput))
    (iteration_sources : List String) (iteration_map : List (String × String))
    (artefacts : Artefacts) (abi : String → List String) :
    Except PyErr (List Row) :=
  if inputs.any (fun p => (abi p.1).isEmpty && p.2.required) then Except.ok []
  else gpmBody inputs iteration_sources iteration_map artefacts abi

/-- One downstream assessor of the governing session: its type and the
recorded input mapping returned by get_inputs (None when the inputs field is
empty); the byte keys and values of the source are decoded to strings, so
encode and decode are the identity here. -/
structure Assessor where
  atype : String
  label : String
  inputsR : Option (List (String × String))
  deriving DecidableEq

/-- Decoded recorded input mapping of an assessor: the dict of strings the
reconciler compares against a parameter row. -/
def decodeRow (l : List (String × String)) : Row :=
  l.map (fun kv => (kv.1, PyVal.str kv.2))

/-- True when the recorded input mapping of the assessor is structurally
equal, as a Python dict, to the parameter row. -/
def rowMatches (a : Assessor) (p : Row) : Bool :=
  match a.inputsR with
  | some inp => dictEq (decodeRow inp) p
  | none => false

/-- Loop of ProcessorParser.compare_to_existing over the assessors of the
target type (lines 869 to 879 of processor_parser.py): none signals the early
return triggered by a missing recorded input mapping; otherwise each assessor
is appended to the slot of every row its mapping equals. -/
def cteLoop (pm : List Row) :
    List Assessor → List (List Assessor) → Option (List (List Assessor))
  | [], acc => some acc
  | casr :: rest, acc =>
    match casr.inputsR with
    | none => none
    | some inp =>
      cteLoop pm rest
        (List.zipWith
          (fun slot p => if dictEq (decodeRow inp) p then slot ++ [casr] else slot)
          acc pm)

/-- Embedding of ProcessorParser.compare_to_existing: pair every row of the
parameter matrix with the list of assessors of the requested type whose
recorded input mapping equals the row; when any such assessor has no
retrievable mapping, the whole invocation returns the empty list. -/
def compare_to_existing (asrs : List Assessor) (proc_type : String)
    (pm : List Row) : List (Row × List Assessor) :=
  match cteLoop pm (asrs.filter (fun a => a.atype == proc_type))
      (pm.map (fun _ => [])) with
  | none => []
  | some acc => pm.zip acc

/-- Embedding of ProcessorParser.get_input_value: a bare input name reads the
value from the row; a parent and child reference reads the chosen parent
artefact, queries its backing entity for the recorded input mapping and reads
the child field (a mapping of None raises TypeError when subscripted; missing
keys raise KeyError; a reference with more than one slash fails to unpack
with ValueError). -/
def get_input_value (input_name : String) (parameter : Row)
    (artefacts : Artefacts) : Except PyErr PyVal :=
  if ¬ (input_name.toList.contains '/') then
    match lookupD parameter input_name with
    | some v => Except.ok v
    | none => Except.error PyErr.keyError
  else
    match (pySplitChar '/' input_name.toList).map String.mk with
    | [pn, cn] =>
      (match lookupD parameter pn with
       | none => Except.error PyErr.keyError
       | some pv =>
         match pv with
         | PyVal.str key =>
           (match lookupD artefacts key with
            | none => Except.error PyErr.keyError
            | some none => Except.error PyErr.typeError
            | some (some fi) =>
              match lookupD fi cn with
              | some v => Except.ok (PyVal.str v)
              | none => Except.error PyErr.keyError)
         | _ => Except.error PyErr.keyError)
    | _ => Except.error PyErr.valueError

/-- Inner comparison loop of ProcessorParser.filter_matrix for one match
filter: resolve each remaining reference and stop at the first value that
differs from the first one. -/
def checkFilterRest (first : PyVal) (cur_param : Row) (artefacts : Artefacts) :
    List String → Except PyErr Bool
  | [] => Except.ok true
  | c :: cs => do
    let v ← get_input_value c cur_param artefacts
    if v = first then checkFilterRest first cur_param artefacts cs
    else Except.ok false

/-- One match filter applied to one row: the first reference seeds the
comparison (an empty filter raises IndexError reading its first entry). -/
def check_filter (cur_param : Row) (artefacts : Artefacts) :
    List String → Except PyErr Bool
  | [] => Except.error PyErr.indexError
  | f0 :: rest => do
    let first ← get_input_value f0 cur_param artefacts
    checkFilterRest first cur_param artefacts rest

/-- All match filters applied to one row; each filter is evaluated even after
an earlier one has failed, as in the source loop, so later errors still
propagate. -/
def row_all_match (cur_param : Row) (artefacts : Artefacts) :
    List (List String) → Except PyErr Bool
  | [] => Except.ok true
  | f :: fs => do
    let b ← check_filter cur_param artefacts f
    let brest ← row_all_match cur_param artefacts fs
    Except.ok (b && brest)

/-- Embedding of ProcessorParser.filter_matrix: keep, in order, the rows for
which every match filter group resolves to pairwise equal values. -/
def filter_matrix (match_filters : List (List String)) (artefacts : Artefacts) :
    List Row → Except PyErr (List Row)
  | [] => Except.ok []
  | p :: ps => do
    let b ← row_all_match p artefacts match_filters
    let rest ← filter_matrix match_filters artefacts ps
    Except.ok (if b then p :: rest else rest)

/-- Matrix generation, match filtering and reconciliation as sequenced by
parse_session after its ordering check (lines 165 to 194 of
processor_parser.py); the artefact catalog and the mapping of artefacts to
inputs are received as snapshots. -/
def session_pipeline (inputs : List (String × PInput))
    (iteration_sources : List String) (iteration_map : List (String × String))
    (artefacts : Artefacts) (abi : String → List String)
    (match_filters : List (List String)) (asrs : List Assessor)
    (proc_type : String) :
    Except PyErr (List Row × List (Row × List Assessor)) := do
  let pm ← generate_parameter_matrix inputs iteration_sources iteration_map
    artefacts abi
  let fm ← filter_matrix match_filters artefacts pm
  Except.ok (fm, compare_to_existing asrs proc_type fm)

/-- Embedding of ProcessorParser.parse_session: lines 154 to 157 walk the
adjacent session pairs first and raise ValueError (session param is not
ordered by datetime) when a later session has a strictly larger creation
timestamp; only afterwards is any cataloguing, matrix or reconciliation work
started. -/
def parse_session (timestamps : List Int) (inputs : List (String × PInput))
    (iteration_sources : List String) (iteration_map : List (String × String))
    (artefacts : Artefacts) (abi : String → List String)
    (match_filters : List (List String)) (asrs : List Assessor)
    (proc_type : String) :
    Except PyErr (List Row × List (Row × List Assessor)) :=
  if (timestamps.zip timestamps.tail).any (fun p => decide (p.1 < p.2)) then
    Except.error PyErr.valueError
  else
    session_pipeline inputs iteration_sources iteration_map artefacts abi
      match_filters asrs proc_type

/-- Example fixture: two ungrouped foreach inputs named A and B, both
required, declared and registered A before B. -/
def inputsAB : List (String × PInput) :=
  [("A", ⟨["foreach"], true⟩), ("B", ⟨["foreach"], true⟩)]

/-- Example candidate map binding the name n1 to cs1 and n2 to cs2, every
other name to the empty list. -/
def abi2 (n1 n2 : String) (cs1 cs2 : List String) : String → List String :=
  fun n => if n = n1 then cs1 else if n = n2 then cs2 else []

/-- Example fixture: optional foreach input A declared before required
foreach input B. -/
def inputsABopt : List (String × PInput) :=
  [("A", ⟨["foreach"], false⟩), ("B", ⟨["foreach"], true⟩)]

/-- Example fixture: required foreach source A with a grouped foreach
dependent K whose group reference names A. -/
def inputsAK : List (String × PInput) :=
  [("A", ⟨["foreach"], true⟩), ("K", ⟨["foreach", "A"], true⟩)]

/-- Example fixture: required foreach input A and an optional foreach input
X. -/
def inputsAX : List (String × PInput) :=
  [("A", ⟨["foreach"], true⟩), ("X", ⟨["foreach"], false⟩)]

/-- Example fixture: required foreach input A and an optional some input X. -/
def inputsAXsome : List (String × PInput) :=
  [("A", ⟨["foreach"], true⟩), ("X", ⟨["some", "2"], false⟩)]

/-- Example fixture: a single required some input X. -/
def inputsXsome : List (String × PInput) :=
  [("X", ⟨["some", "2"], true⟩)]

/-
Helper lemmas shared by the claim theorems below.
-/

theorem exOkBind {α β : Type} (a : α) (f : α → Except PyErr β) :
    (Except.ok a >>= f : Except PyErr β) = f a := rfl

theorem exErrBind {α β : Type} (e : PyErr) (f : α → Except PyErr β) :
    (Except.error e >>= f : Except PyErr β) = Except.error e := rfl

theorem exMapM_ok {α β : Type} (f : α → Except PyErr β) (g : α → β) (l : List α)
    (h : ∀ a ∈ l, f a = Except.ok (g a)) : exMapM f l = Except.ok (l.map g) := by
  induction l with
  | nil => rfl
  | cons x xs ih =>
    simp only [exMapM, h x (by simp), exOkBind,
      ih (fun a ha => h a (by simp [ha])), List.map_cons]

theorem exMapM_map {α β γ : Type} (f : β → Except PyErr γ) (h : α → β)
    (l : List α) : exMapM f (l.map h) = exMapM (fun a => f (h a)) l := by
  induction l with
  | nil => rfl
  | cons x xs ih => simp only [List.map_cons, exMapM, ih]

theorem exMapM_append {α β : Type} (f : α → Except PyErr β) (l1 l2 : List α) :
    exMapM f (l1 ++ l2) = (do
      let a ← exMapM f l1
      let b ← exMapM f l2
      Except.ok (a ++ b)) := by
  induction l1 with
  | nil =>
    simp only [List.nil_append, exMapM, exOkBind]
    cases exMapM f l2 <;> rfl
  | cons x xs ih =>
    show (do
      let y ← f x
      let ys ← exMapM f (xs ++ l2)
      Except.ok (y :: ys))
      = (do
        let a ← (do
          let y ← f x
          let ys ← exMapM f xs
          Except.ok (y :: ys))
        let b ← exMapM f l2
        Except.ok (a ++ b))
    rw [ih]
    cases f x with
    | error e => rfl
    | ok y =>
      simp only [exOkBind]
      cases exMapM f xs with
      | error e => rfl
      | ok a =>
        simp only [exOkBind]
        cases exMapM f l2 with
        | error e => rfl
        | ok b => simp only [exOkBind, List.cons_append]

theorem exMapM_flatMap_map {α₁ α₂ β γ : Type} (f : β → Except PyErr γ)
    (k : α₁ → α₂ → β) (g : α₁ → α₂ → γ) (l1 : List α₁) (l2 : List α₂)
    (h : ∀ a ∈ l1, ∀ b ∈ l2, f (k a b) = Except.ok (g a b)) :
    exMapM f (l1.flatMap (fun a => l2.map (k a)))
      = Except.ok (l1.flatMap (fun a => l2.map (g a))) := by
  induction l1 with
  | nil => rfl
  | cons x xs ih =>
    rw [List.flatMap_cons, exMapM_append, exMapM_map,
      exMapM_ok (fun b => f (k x b)) (g x) l2 (fun b hb => h x (by simp) b hb),
      ih (fun a ha b hb => h a (by simp [ha]) b hb)]
    rfl

theorem map_range_getD {α β : Type} (xs : List α) (d : α) (f : α → β) :
    (List.range xs.length).map (fun r => f (xs.getD r d)) = xs.map f := by
  induction xs with
  | nil => rfl
  | cons x xs ih =>
    rw [List.length_cons, List.range_succ_eq_map]
    simp only [List.map_cons, List.map_map, Function.comp_def,
      List.getD_cons_zero, List.getD_cons_succ]
    rw [ih]

theorem flatMap_singleton_map {α β : Type} (f : α → β) (l : List α) :
    (l.flatMap fun x => [f x]) = l.map f := by
  induction l with
  | nil => rfl
  | cons x xs ih => simp [List.flatMap_cons, ih]

theorem pyProduct_single (l : List PyVal) :
    pyProduct [l] = l.map (fun x => [x]) := by
  have h : pyProduct [l] = l.flatMap (fun x => [[x]]) := rfl
  rw [h, flatMap_singleton_map]

theorem pyProduct_pair (l1 l2 : List PyVal) :
    pyProduct [l1, l2] = l1.flatMap (fun x => l2.map (fun y => [x, y])) := by
  have h : pyProduct [l1, l2]
      = l1.flatMap (fun x => (pyProduct [l2]).map (fun t => x :: t)) := rfl
  rw [h]
  simp only [pyProduct_single, List.map_map]
  rfl

theorem flatMapMap {α β γ : Type} (g : α → β) (h : β → List γ) (l : List α) :
    (l.map g).flatMap h = l.flatMap (fun a => h (g a)) := by
  induction l with
  | nil => rfl
  | cons x xs ih => simp [List.flatMap_cons, ih]

theorem exMapM_rowflat (rows : List (List PyVal)) :
    exMapM (fun t => do
        let parts ← exMapM pyIterTop t
        Except.ok parts.flatten) (rows.map (fun r => [PyVal.list r]))
      = Except.ok rows := by
  rw [exMapM_map]
  have h := exMapM_ok (fun r : List PyVal => (do
      let parts ← exMapM pyIterTop [PyVal.list r]
      Except.ok parts.flatten : Except PyErr (List PyVal)))
    (fun r => r) rows (fun r _ => by
      show (do
        let parts ← exMapM pyIterTop [PyVal.list r]
        Except.ok parts.flatten) = Except.ok r
      have he : exMapM pyIterTop [PyVal.list r] = Except.ok [r] := rfl
      rw [he, exOkBind]
      simp)
  simpa using h

theorem exMapM_rowflat_pair (rows1 rows2 : List (List PyVal)) :
    exMapM (fun t => do
        let parts ← exMapM pyIterTop t
        Except.ok parts.flatten)
      (rows1.flatMap (fun r1 => rows2.map (fun r2 => [PyVal.list r1, PyVal.list r2])))
      = Except.ok (rows1.flatMap (fun r1 => rows2.map (fun r2 => r1 ++ r2))) := by
  apply exMapM_flatMap_map
  intro a _ b _
  have he : exMapM pyIterTop [PyVal.list a, PyVal.list b]
      = Except.ok [a, b] := rfl
  show (do
    let parts ← exMapM pyIterTop [PyVal.list a, PyVal.list b]
    Except.ok parts.flatten) = Except.ok (a ++ b)
  rw [he, exOkBind]
  simp

theorem flatMap_nil_fun {α β : Type} (l : List α) :
    (l.flatMap fun _ => ([] : List β)) = [] := by
  induction l with
  | nil => rfl
  | cons x xs ih => simp [List.flatMap_cons, ih]

theorem sanitised_of_ne_nil (abi : String → List String) (i : String)
    (h : abi i ≠ []) : sanitised_input abi i = (abi i).map PyVal.str := by
  unfold sanitised_input
  cases habi : abi i with
  | nil => exact absurd habi h
  | cons x xs => rfl

theorem gpmBody_single (inputs : List (String × PInput)) (mp : List (String × String))
    (arts : Artefacts) (abi : String → List String) (n : String)
    (ns : List String) (rows : List (List PyVal))
    (hd : dimensionFor inputs mp arts abi n
      = Except.ok (ns, PyVal.list (rows.map PyVal.list)))
    (hlen : ∀ r ∈ rows, ns.length ≤ r.length) :
    gpmBody inputs [n] mp arts abi
      = Except.ok (rows.map (fun r =>
          (ns.zip r).foldl (fun acc p => dictInsert acc p.1 p.2) [])) := by
  have hpairs : exMapM (dimensionFor inputs mp arts abi) [n]
      = Except.ok [(ns, PyVal.list (rows.map PyVal.list))] := by
    show (do
      let y ← dimensionFor inputs mp arts abi n
      let ys ← exMapM (dimensionFor inputs mp arts abi) ([] : List String)
      Except.ok (y :: ys)) = _
    rw [hd]
    rfl
  unfold gpmBody
  rw [hpairs, exOkBind]
  simp only [List.map_cons, List.map_nil]
  rw [show exMapM pyIterTop [PyVal.list (List.map PyVal.list rows)]
      = Except.ok [List.map PyVal.list rows] from rfl, exOkBind]
  simp only [pyProduct_single, List.map_map]
  rw [show List.map ((fun x => [x]) ∘ PyVal.list) rows
      = rows.map (fun r => [PyVal.list r]) from rfl]
  rw [exMapM_rowflat, exOkBind]
  rw [show ([ns] : List (List String)).flatten = ns from by simp]
  exact exMapM_ok (buildRow ns)
    (fun r => (ns.zip r).foldl (fun acc p => dictInsert acc p.1 p.2) []) rows
    (fun r hr => by
      unfold buildRow
      rw [if_pos (hlen r hr)])

theorem gpmBody_pair (inputs : List (String × PInput)) (mp : List (String × String))
    (arts : Artefacts) (abi : String → List String) (n1 n2 : String)
    (ns1 ns2 : List String) (rows1 rows2 : List (List PyVal))
    (hd1 : dimensionFor inputs mp arts abi n1
      = Except.ok (ns1, PyVal.list (rows1.map PyVal.list)))
    (hd2 : dimensionFor inputs mp arts abi n2
      = Except.ok (ns2, PyVal.list (rows2.map PyVal.list)))
    (hlen : ∀ r1 ∈ rows1, ∀ r2 ∈ rows2,
      (ns1 ++ ns2).length ≤ (r1 ++ r2).length) :
    gpmBody inputs [n1, n2] mp arts abi
      = Except.ok (rows1.flatMap (fun r1 => rows2.map (fun r2 =>
          ((ns1 ++ ns2).zip (r1 ++ r2)).foldl
            (fun acc p => dictInsert acc p.1 p.2) []))) := by
  have hpairs : exMapM (dimensionFor inputs mp arts abi) [n1, n2]
      = Except.ok [(ns1, PyVal.list (rows1.map PyVal.list)),
          (ns2, PyVal.list (rows2.map PyVal.list))] := by
    show (do
      let y ← dimensionFor inputs mp arts abi n1
      let ys ← (do
        let y2 ← dimensionFor inputs mp arts abi n2
        let ys2 ← exMapM (dimensionFor inputs mp arts abi) ([] : List String)
        Except.ok (y2 :: ys2))
      Except.ok (y :: ys)) = _
    rw [hd1, hd2]
    rfl
  unfold gpmBody
  rw [hpairs, exOkBind]
  simp only [List.map_cons, List.map_nil]
  rw [show exMapM pyIterTop [PyVal.list (List.map PyVal.list rows1),
        PyVal.list (List.map PyVal.list rows2)]
      = Except.ok [List.map PyVal.list rows1, List.map PyVal.list rows2] from rfl,
    exOkBind]
  rw [pyProduct_pair, flatMapMap]
  simp only [List.map_map]
  rw [show (fun (a : List PyVal) => List.map
        ((fun (y : PyVal) => [PyVal.list a, y]) ∘ PyVal.list) rows2)
      = (fun a => rows2.map (fun r2 => [PyVal.list a, PyVal.list r2])) from rfl]
  rw [exMapM_rowflat_pair, exOkBind]
  rw [show ([ns1, ns2] : List (List String)).flatten = ns1 ++ ns2 from by simp]
  exact exMapM_flatMap_map (buildRow (ns1 ++ ns2))
    (fun r1 r2 => r1 ++ r2)
    (fun r1 r2 => ((ns1 ++ ns2).zip (r1 ++ r2)).foldl
      (fun acc p => dictInsert acc p.1 p.2) [])
    rows1 rows2
    (fun r1 h1 r2 h2 => by
      unfold buildRow
      rw [if_pos (hlen r1 h1 r2 h2)])

theorem dimensionFor_foreach_nomap (inputs : List (String × PInput)) (arts : Artefacts)
    (abi : String → List String) (i : String) (spec : PInput)
    (h : lookupD inputs i = some spec) (hsel : spec.select = ["foreach"]) :
    dimensionFor inputs [] arts abi i
      = Except.ok ([i], PyVal.list
          ((sanitised_input abi i).map (fun v => PyVal.list [v]))) := by
  simp only [dimensionFor, h, hsel, exOkBind]
  simp only [reduceIte, true_or, if_true, exOkBind]
  rw [show attachDependents inputs arts abi i [] = Except.ok ([], []) from rfl,
    exOkBind]
  simp only [Option.getD_some]
  rw [show exMapM pyLen [PyVal.list (sanitised_input abi i)]
      = Except.ok [(sanitised_input abi i).length] from rfl, exOkBind]
  rw [show listMin [(sanitised_input abi i).length]
      = (sanitised_input abi i).length from rfl]
  rw [show (fun r => PyVal.list (List.map (fun c => pyGet c r)
        [PyVal.list (sanitised_input abi i)]))
      = (fun r => PyVal.list [(sanitised_input abi i).getD r PyVal.pynone]) from rfl]
  rw [map_range_getD (sanitised_input abi i) PyVal.pynone
    (fun v => PyVal.list [v])]

theorem gpm_pair_foreach (inputs : List (String × PInput)) (arts : Artefacts)
    (abi : String → List String) (n1 n2 : String) (s1 s2 : PInput)
    (h1 : lookupD inputs n1 = some s1) (hsel1 : s1.select = ["foreach"])
    (h2 : lookupD inputs n2 = some s2) (hsel2 : s2.select = ["foreach"])
    (hgate : (inputs.any (fun p => (abi p.1).isEmpty && p.2.required)) = false) :
    generate_parameter_matrix inputs [n1, n2] [] arts abi
      = Except.ok ((sanitised_input abi n1).flatMap (fun v1 =>
          (sanitised_input abi n2).map (fun v2 =>
            (([n1, n2]).zip [v1, v2]).foldl
              (fun acc p => dictInsert acc p.1 p.2) []))) := by
  unfold generate_parameter_matrix
  rw [hgate]
  simp only [Bool.false_eq_true, if_false]
  have hd1 : dimensionFor inputs [] arts abi n1
      = Except.ok ([n1], PyVal.list
          (((sanitised_input abi n1).map (fun v => [v])).map PyVal.list)) := by
    rw [dimensionFor_foreach_nomap inputs arts abi n1 s1 h1 hsel1, List.map_map]
    rfl
  have hd2 : dimensionFor inputs [] arts abi n2
      = Except.ok ([n2], PyVal.list
          (((sanitised_input abi n2).map (fun v => [v])).map PyVal.list)) := by
    rw [dimensionFor_foreach_nomap inputs arts abi n2 s2 h2 hsel2, List.map_map]
    rfl
  rw [gpmBody_pair inputs [] arts abi n1 n2 [n1] [n2]
    ((sanitised_input abi n1).map (fun v => [v]))
    ((sanitised_input abi n2).map (fun v => [v])) hd1 hd2
    (fun r1 hr1 r2 hr2 => by
      obtain ⟨v1, _, rfl⟩ := List.mem_map.mp hr1
      obtain ⟨v2, _, rfl⟩ := List.mem_map.mp hr2
      simp)]
  rw [flatMapMap]
  simp only [List.map_map]
  rfl

theorem getD_map_lt {α β : Type} (f : α → β) (d : β) (dd : α) :
    ∀ (xs : List α) (r : Nat), r < xs.length →
      (xs.map f).getD r d = f (xs.getD r dd)
  | _ :: _, 0, _ => rfl
  | _ :: xs, r + 1, h => getD_map_lt f d dd xs r (Nat.lt_of_succ_lt_succ h)
  | [], r, h => absurd h (Nat.not_lt_zero r)

/-- Claim C1: for every specification and candidate mapping in which at least
one input marked required has an empty candidate list,
generate_parameter_matrix returns an empty matrix, and this is a normal
return value, not an error. -/
theorem C1_required_empty_gate (inputs : List (String × PInput))
    (srcs : List String) (mp : List (String × String)) (arts : Artefacts)
    (abi : String → List String)
    (h : ∃ p ∈ inputs, abi p.1 = [] ∧ p.2.required = true) :
    generate_parameter_matrix inputs srcs mp arts abi = Except.ok [] := by
  unfold generate_parameter_matrix
  obtain ⟨p, hmem, h1, h2⟩ := h
  rw [if_pos]
  exact List.any_eq_true.mpr ⟨p, hmem, by simp [h1, h2]⟩

/-- Claim C1 witness: the two-input fixture with no candidates at all yields
the empty matrix. -/
theorem C1_witness :
    generate_parameter_matrix inputsAB ["A", "B"] [] [] (fun _ => [])
      = Except.ok [] :=
  C1_required_empty_gate inputsAB ["A", "B"] [] [] (fun _ => [])
    ⟨("A", ⟨["foreach"], true⟩), by simp [inputsAB], rfl, rfl⟩

/-- Claim C2, amended: for two required ungrouped foreach inputs A and B with
candidate lists as and bs, the matrix is the full product with every
combination exactly once and candidate order preserved inside each dimension;
the major order of the rows follows the enumeration order in which the
iteration-sources set is walked, which for a Python set is not tied to
source-registration order.  Both possible enumeration orders are
characterized. -/
theorem C2_product_order (as bs : List String) :
    generate_parameter_matrix inputsAB ["A", "B"] [] [] (abi2 "A" "B" as bs)
      = Except.ok (as.flatMap (fun a => bs.map (fun b =>
          [("A", PyVal.str a), ("B", PyVal.str b)])))
    ∧ generate_parameter_matrix inputsAB ["B", "A"] [] [] (abi2 "A" "B" as bs)
      = Except.ok (bs.flatMap (fun b => as.map (fun a =>
          [("B", PyVal.str b), ("A", PyVal.str a)]))) := by
  constructor
  · cases as with
    | nil => rfl
    | cons a as' =>
      cases bs with
      | nil =>
        rw [show ((a :: as').flatMap (fun a => ([] : List String).map (fun b =>
          [("A", PyVal.str a), ("B", PyVal.str b)]))) = [] from flatMap_nil_fun _]
        rfl
      | cons b bs' =>
        rw [gpm_pair_foreach inputsAB [] (abi2 "A" "B" (a :: as') (b :: bs'))
          "A" "B" ⟨["foreach"], true⟩ ⟨["foreach"], true⟩ rfl rfl rfl rfl rfl]
        rw [sanitised_of_ne_nil _ "A" (by exact List.cons_ne_nil a as'),
          sanitised_of_ne_nil _ "B" (by exact List.cons_ne_nil b bs')]
        rw [show abi2 "A" "B" (a :: as') (b :: bs') "A" = a :: as' from rfl,
          show abi2 "A" "B" (a :: as') (b :: bs') "B" = b :: bs' from rfl]
        rw [flatMapMap]
        simp only [List.map_map]
        rfl
  · cases as with
    | nil =>
      rw [show (bs.flatMap (fun b => ([] : List String).map (fun a =>
        [("B", PyVal.str b), ("A", PyVal.str a)])))
        = (bs.flatMap (fun _ => ([] : List Row))) from rfl,
        flatMap_nil_fun]
      rfl
    | cons a as' =>
      cases bs with
      | nil => rfl
      | cons b bs' =>
        rw [gpm_pair_foreach inputsAB [] (abi2 "A" "B" (a :: as') (b :: bs'))
          "B" "A" ⟨["foreach"], true⟩ ⟨["foreach"], true⟩ rfl rfl rfl rfl rfl]
        rw [sanitised_of_ne_nil _ "A" (by exact List.cons_ne_nil a as'),
          sanitised_of_ne_nil _ "B" (by exact List.cons_ne_nil b bs')]
        rw [show abi2 "A" "B" (a :: as') (b :: bs') "A" = a :: as' from rfl,
          show abi2 "A" "B" (a :: as') (b :: bs') "B" = b :: bs' from rfl]
        rw [flatMapMap]
        simp only [List.map_map]
        rfl

/-- Claim C2 witness: at the three-by-two example with enumeration order A
then B, the six product rows appear in A-major order. -/
theorem C2_witness :
    generate_parameter_matrix inputsAB ["A", "B"] [] []
        (abi2 "A" "B" ["a1", "a2", "a3"] ["b1", "b2"])
      = Except.ok
          [[("A", PyVal.str "a1"), ("B", PyVal.str "b1")],
           [("A", PyVal.str "a1"), ("B", PyVal.str "b2")],
           [("A", PyVal.str "a2"), ("B", PyVal.str "b1")],
           [("A", PyVal.str "a2"), ("B", PyVal.str "b2")],
           [("A", PyVal.str "a3"), ("B", PyVal.str "b1")],
           [("A", PyVal.str "a3"), ("B", PyVal.str "b2")]] :=
  (C2_product_order ["a1", "a2", "a3"] ["b1", "b2"]).1

/-- Claim C2 counterexample: with the sources registered A before B but the
set enumerated B before A (Python string sets do not expose insertion order),
the rows come out in B-major order, which differs from the
registration-major order the claim requires; moreover a non-required source
with zero candidates contributes one null row, so zero times n rows is also
violated at m equal zero. -/
theorem C2_registration_order_counterexample :
    generate_parameter_matrix inputsAB ["B", "A"] [] []
        (abi2 "A" "B" ["a1", "a2", "a3"] ["b1", "b2"])
      = Except.ok
          [[("B", PyVal.str "b1"), ("A", PyVal.str "a1")],
           [("B", PyVal.str "b1"), ("A", PyVal.str "a2")],
           [("B", PyVal.str "b1"), ("A", PyVal.str "a3")],
           [("B", PyVal.str "b2"), ("A", PyVal.str "a1")],
           [("B", PyVal.str "b2"), ("A", PyVal.str "a2")],
           [("B", PyVal.str "b2"), ("A", PyVal.str "a3")]]
    ∧ ([[("B", PyVal.str "b1"), ("A", PyVal.str "a1")],
        [("B", PyVal.str "b1"), ("A", PyVal.str "a2")],
        [("B", PyVal.str "b1"), ("A", PyVal.str "a3")],
        [("B", PyVal.str "b2"), ("A", PyVal.str "a1")],
        [("B", PyVal.str "b2"), ("A", PyVal.str "a2")],
        [("B", PyVal.str "b2"), ("A", PyVal.str "a3")]] : List Row)
      ≠ [[("A", PyVal.str "a1"), ("B", PyVal.str "b1")],
         [("A", PyVal.str "a1"), ("B", PyVal.str "b2")],
         [("A", PyVal.str "a2"), ("B", PyVal.str "b1")],
         [("A", PyVal.str "a2"), ("B", PyVal.str "b2")],
         [("A", PyVal.str "a3"), ("B", PyVal.str "b1")],
         [("A", PyVal.str "a3"), ("B", PyVal.str "b2")]]
    ∧ generate_parameter_matrix inputsABopt ["A", "B"] [] []
        (abi2 "A" "B" [] ["b1"])
      = Except.ok [[("A", PyVal.pynone), ("B", PyVal.str "b1")]] :=
  ⟨rfl, by decide, rfl⟩

/-- Claim C3: an input with the valid directive some(2) is parsed as the
statement with mode some, yet registration leaves both registries untouched:
the input lands in neither the iteration sources nor the dependent map,
contradicting the exactly-one classification. -/
theorem C3_some_in_neither_registry :
    parse_select (some "some(2)") = Except.ok ["some", "2"]
    ∧ "some" ∈ select_namespace_modes
    ∧ register_iteration_references "X" ["some", "2"] ∅ []
      = Except.ok (∅, []) :=
  ⟨rfl, by decide, rfl⟩

/-- Claim C4: a required some(2) input with one candidate is never registered
as an iteration source, so the matrix generator emits exactly one row that
does not contain the input at all, instead of one row holding the clipped
candidate list. -/
theorem C4_some_row_empty :
    register_iteration_references "X" ["some", "2"] ∅ [] = Except.ok (∅, [])
    ∧ generate_parameter_matrix inputsXsome [] [] []
        (fun n => if n = "X" then ["p1"] else []) = Except.ok [[]] :=
  ⟨rfl, rfl⟩

/-- Claim C9: a foreach source A with a grouped foreach dependent K of a
different candidate count is truncated to the shorter column: the dimension
contributes exactly min-length row fragments pairing the r-th candidate of
each column, and no error is raised for the surplus entries. -/
theorem C9_truncation (as ks : List String) :
    generate_parameter_matrix inputsAK ["A"] [("K", "A")] [] (abi2 "A" "K" as ks)
      = Except.ok ((List.range (Nat.min as.length ks.length)).map
          (fun r => [("A", PyVal.str (as.getD r "")),
                     ("K", PyVal.str (ks.getD r ""))])) := by
  cases as with
  | nil =>
    simp only [List.length_nil, Nat.zero_min, List.range_zero, List.map_nil]
    rfl
  | cons a as' =>
    cases ks with
    | nil =>
      simp only [List.length_nil, Nat.min_zero, List.range_zero, List.map_nil]
      rfl
    | cons k ks' =>
      have hdim : dimensionFor inputsAK [("K", "A")] []
          (abi2 "A" "K" (a :: as') (k :: ks')) "A"
          = Except.ok (["A", "K"], PyVal.list
              ((List.range (Nat.min (a :: as').length (k :: ks').length)).map
                (fun r => PyVal.list
                  [((a :: as').map PyVal.str).getD r PyVal.pynone,
                   ((k :: ks').map PyVal.str).getD r PyVal.pynone]))) := by
        simp only [dimensionFor,
          show lookupD inputsAK "A" = some (⟨["foreach"], true⟩ : PInput) from rfl,
          exOkBind]
        simp only [reduceIte, true_or, if_true, exOkBind]
        rw [show attachDependents inputsAK [] (abi2 "A" "K" (a :: as') (k :: ks'))
              "A" [("K", "A")]
            = Except.ok (["K"], [PyVal.list ((k :: ks').map PyVal.str)]) from rfl,
          exOkBind]
        simp only [Option.getD_some]
        rw [show sanitised_input (abi2 "A" "K" (a :: as') (k :: ks')) "A"
            = (a :: as').map PyVal.str from rfl]
        rw [show exMapM pyLen [PyVal.list ((a :: as').map PyVal.str),
              PyVal.list ((k :: ks').map PyVal.str)]
            = Except.ok [((a :: as').map PyVal.str).length,
                ((k :: ks').map PyVal.str).length] from rfl, exOkBind]
        rw [show listMin [((a :: as').map PyVal.str).length,
              ((k :: ks').map PyVal.str).length]
            = Nat.min ((a :: as').map PyVal.str).length
                ((k :: ks').map PyVal.str).length from rfl]
        simp only [List.length_map]
        rw [show (fun r => PyVal.list (List.map (fun c => pyGet c r)
              [PyVal.list ((a :: as').map PyVal.str),
               PyVal.list ((k :: ks').map PyVal.str)]))
            = (fun r => PyVal.list
                [((a :: as').map PyVal.str).getD r PyVal.pynone,
                 ((k :: ks').map PyVal.str).getD r PyVal.pynone]) from rfl]
      have hd : dimensionFor inputsAK [("K", "A")] []
          (abi2 "A" "K" (a :: as') (k :: ks')) "A"
          = Except.ok (["A", "K"], PyVal.list
              (((List.range (Nat.min (a :: as').length (k :: ks').length)).map
                (fun r =>
                  [((a :: as').map PyVal.str).getD r PyVal.pynone,
                   ((k :: ks').map PyVal.str).getD r PyVal.pynone])).map
                PyVal.list)) := by
        rw [hdim, List.map_map]
        rfl
      rw [show generate_parameter_matrix inputsAK ["A"] [("K", "A")] []
            (abi2 "A" "K" (a :: as') (k :: ks'))
          = gpmBody inputsAK ["A"] [("K", "A")] []
            (abi2 "A" "K" (a :: as') (k :: ks')) from rfl]
      rw [gpmBody_single inputsAK [("K", "A")] []
        (abi2 "A" "K" (a :: as') (k :: ks')) "A" ["A", "K"]
        ((List.range (Nat.min (a :: as').length (k :: ks').length)).map
          (fun r =>
            [((a :: as').map PyVal.str).getD r PyVal.pynone,
             ((k :: ks').map PyVal.str).getD r PyVal.pynone])) hd
        (fun r hr => by
          obtain ⟨i, _, rfl⟩ := List.mem_map.mp hr
          simp)]
      rw [List.map_map]
      apply congrArg
      apply List.map_congr_left
      intro r hr
      have hrm := List.mem_range.mp hr
      have h1 : r < (a :: as').length :=
        lt_of_lt_of_le hrm (Nat.min_le_left _ _)
      have h2 : r < (k :: ks').length :=
        lt_of_lt_of_le hrm (Nat.min_le_right _ _)
      show [("A", ((a :: as').map PyVal.str).getD r PyVal.pynone),
            ("K", ((k :: ks').map PyVal.str).getD r PyVal.pynone)]
          = [("A", PyVal.str ((a :: as').getD r "")),
             ("K", PyVal.str ((k :: ks').getD r ""))]
      rw [getD_map_lt PyVal.str PyVal.pynone "" (a :: as') r h1,
        getD_map_lt PyVal.str PyVal.pynone "" (k :: ks') r h2]

/-- Claim C9 witness: three source candidates against two dependent
candidates give exactly two aligned rows and no error. -/
theorem C9_witness :
    generate_parameter_matrix inputsAK ["A"] [("K", "A")] []
        (abi2 "A" "K" ["a1", "a2", "a3"] ["k1", "k2"])
      = Except.ok
          [[("A", PyVal.str "a1"), ("K", PyVal.str "k1")],
           [("A", PyVal.str "a2"), ("K", PyVal.str "k2")]] :=
  C9_truncation ["a1", "a2", "a3"] ["k1", "k2"]

/-- Claim C10, amended: a non-required input with an empty candidate list is
sanitised to the single-element list holding the null value; when such an
input is itself an ungrouped foreach iteration source, every generated row
contains its name mapped to null.  An input that is registered in neither
registry, such as a some input, appears in no row at all. -/
theorem C10_null_substitution (as : List String) :
    generate_parameter_matrix inputsAX ["A", "X"] [] [] (abi2 "A" "X" as [])
      = Except.ok (as.map (fun a => [("A", PyVal.str a), ("X", PyVal.pynone)])) := by
  cases as with
  | nil => rfl
  | cons a as' =>
    rw [gpm_pair_foreach inputsAX [] (abi2 "A" "X" (a :: as') [])
      "A" "X" ⟨["foreach"], true⟩ ⟨["foreach"], false⟩ rfl rfl rfl rfl rfl]
    rw [show sanitised_input (abi2 "A" "X" (a :: as') []) "A"
        = (a :: as').map PyVal.str from rfl]
    rw [show sanitised_input (abi2 "A" "X" (a :: as') []) "X"
        = [PyVal.pynone] from rfl]
    rw [flatMapMap]
    rw [show (fun (a : String) => ([PyVal.pynone].map (fun v2 =>
          ((["A", "X"]).zip [PyVal.str a, v2]).foldl
            (fun acc p => dictInsert acc p.1 p.2) [])))
        = (fun a => [[("A", PyVal.str a), ("X", PyVal.pynone)]]) from rfl]
    rw [flatMap_singleton_map]

/-- Claim C10 witness: two candidates for A and none for the optional foreach
input X give two rows, each holding X mapped to null. -/
theorem C10_witness :
    generate_parameter_matrix inputsAX ["A", "X"] [] []
        (abi2 "A" "X" ["a1", "a2"] [])
      = Except.ok
          [[("A", PyVal.str "a1"), ("X", PyVal.pynone)],
           [("A", PyVal.str "a2"), ("X", PyVal.pynone)]] :=
  C10_null_substitution ["a1", "a2"]

/-- Claim C10 counterexample: a non-required some input X with no candidates
is registered in neither registry, so the generated row omits the key X
entirely instead of binding it to null. -/
theorem C10_some_omitted_counterexample :
    register_iteration_references "X" ["some", "2"] {"A"} []
      = Except.ok ({"A"}, [])
    ∧ generate_parameter_matrix inputsAXsome ["A"] [] []
        (abi2 "A" "X" ["a1"] [])
      = Except.ok [[("A", PyVal.str "a1")]]
    ∧ lookupD [("A", PyVal.str "a1")] "X" = none :=
  ⟨rfl, rfl, rfl⟩

/-- Claim C5 counterexample: the well-formed unknown artefact-select token
bogus is accepted by parsing and then silently ignored by registration, which
returns the registries unchanged and raises no unsupported-mode error; the
well-formed unknown session-select token sometimes is rejected during parsing
itself with an unbound-local error, not at registration. -/
theorem C5_no_registration_error_counterexample :
    parse_select (some "bogus") = Except.ok ["bogus"]
    ∧ register_iteration_references "inp" ["bogus"] ∅ [] = Except.ok (∅, [])
    ∧ ¬ (∃ e, register_iteration_references "inp" ["bogus"] ∅ []
        = Except.error e)
    ∧ parse_session_select (some "sometimes")
      = Except.error PyErr.unboundLocalError :=
  ⟨rfl, rfl, by
    intro h
    obtain ⟨e, he⟩ := h
    exact Except.noConfusion he, rfl⟩

/-- Claim C5, amended: an artefact-select token outside the recognized set is
accepted by parsing and silently ignored by registration (the registries are
returned unchanged, without any error); a session-select token outside the
recognized set raises an unbound-local error inside the parser itself.
Unsupported-mode diagnostics exist only in the separate validation routine,
which returns them as strings. -/
theorem C5_unrecognized_modes (name a0 : String) (rest : List String)
    (srcs : Finset String) (mp : List (String × String))
    (s t : String) (r : List String) :
    (a0 ∉ (["foreach", "one", "all", "from"] : List String) →
      register_iteration_references name (a0 :: rest) srcs mp
        = Except.ok (srcs, mp))
    ∧ (get_args (pyStrip s) = Except.ok (t :: r) →
       t ∉ select_session_namespace_modes →
       parse_session_select (some s) = Except.error PyErr.unboundLocalError)
    ∧ check_valid_mode "scan" "inp" "select" select_namespace_modes
        (some "bogus") ≠ [] := by
  refine ⟨?_, ?_, by decide⟩
  · intro h
    have h1 : ¬ (a0 = "foreach") := fun hh => h (by simp [hh])
    have h2 : ¬ (a0 = "one") := fun hh => h (by simp [hh])
    have h3 : ¬ (a0 = "all") := fun hh => h (by simp [hh])
    have h4 : ¬ (a0 = "from") := fun hh => h (by simp [hh])
    simp only [register_iteration_references, h1, h2, h3, h4, if_false]
  · intro hga hns
    unfold parse_session_select
    rw [show ((some s).getD "current") = s from rfl, hga, exOkBind]
    simp only [select_session_namespace_modes, List.mem_cons,
      List.not_mem_nil, or_false, not_or] at hns
    obtain ⟨h1, h2, h3, h4, h5⟩ := hns
    rw [show ((t :: r).headD "") = t from rfl]
    rw [if_neg h1, if_neg (fun hh => hh.elim h2 h3),
      if_neg (fun hh => hh.elim h4 h5)]

/-- Claim C5 witness: the amended behavior at the concrete tokens bogus and
sometimes. -/
theorem C5_witness :
    register_iteration_references "inp" ["bogus"] ∅ [] = Except.ok (∅, [])
    ∧ parse_session_select (some "sometimes")
      = Except.error PyErr.unboundLocalError :=
  ⟨(C5_unrecognized_modes "inp" "bogus" [] ∅ [] "sometimes" "sometimes" []).1
      (by decide),
   (C5_unrecognized_modes "inp" "bogus" [] ∅ [] "sometimes" "sometimes" []).2.1
      rfl (by decide)⟩

theorem zip_tail_any_lt (ts : List Int) :
    (((ts.zip ts.tail).any (fun p => decide (p.1 < p.2))) = false)
      ↔ List.Chain' (fun a b : Int => b ≤ a) ts := by
  induction ts with
  | nil => simp
  | cons x xs ih =>
    cases xs with
    | nil => simp
    | cons y ys =>
      have ih' : ((((y :: ys).zip ys).any (fun p => decide (p.1 < p.2))) = false)
          ↔ List.Chain' (fun a b : Int => b ≤ a) (y :: ys) := ih
      rw [show ((x :: y :: ys).zip (x :: y :: ys).tail)
          = ((x, y) :: ((y :: ys).zip ys)) from rfl]
      rw [List.any_cons, List.chain'_cons]
      simp only [Bool.or_eq_false_iff, decide_eq_false_iff_not, not_lt, ih']

/-- Claim C6 counterexample: the session list with two equal timestamps is
not strictly descending, yet parse_session raises nothing and completes
normally, because the check at lines 154 to 157 only fires on a strictly
ascending adjacent pair. -/
theorem C6_equal_timestamps_counterexample :
    ¬ List.Chain' (fun a b : Int => a > b) [(5 : Int), 5]
    ∧ parse_session [(5 : Int), 5] [] [] [] [] (fun _ => []) [] [] "t"
      = Except.ok ([[]], [([], [])]) :=
  ⟨by norm_num [List.chain'_cons], rfl⟩

/-- Claim C6, amended: parse_session raises the ordering ValueError exactly
when some adjacent pair of session timestamps is strictly increasing, that
is, exactly when the sequence is not weakly descending; equal adjacent
timestamps pass.  The check precedes all artefact cataloguing, matrix
generation and reconciliation: on failure the error is returned without the
pipeline being invoked, on success the result is exactly the downstream
pipeline. -/
theorem C6_ordering_check (ts : List Int) (inputs : List (String × PInput))
    (srcs : List String) (mp : List (String × String)) (arts : Artefacts)
    (abi : String → List String) (mfs : List (List String))
    (asrs : List Assessor) (proc : String) :
    (List.Chain' (fun a b : Int => b ≤ a) ts →
      parse_session ts inputs srcs mp arts abi mfs asrs proc
        = session_pipeline inputs srcs mp arts abi mfs asrs proc)
    ∧ (¬ List.Chain' (fun a b : Int => b ≤ a) ts →
      parse_session ts inputs srcs mp arts abi mfs asrs proc
        = Except.error PyErr.valueError) := by
  constructor
  · intro h
    unfold parse_session
    rw [if_neg]
    intro hb
    rw [(zip_tail_any_lt ts).mpr h] at hb
    exact Bool.false_ne_true hb
  · intro h
    have hb : ((ts.zip ts.tail).any (fun p => decide (p.1 < p.2))) = true := by
      cases hbb : ((ts.zip ts.tail).any (fun p => decide (p.1 < p.2))) with
      | true => rfl
      | false => exact absurd ((zip_tail_any_lt ts).mp hbb) h
    unfold parse_session
    rw [if_pos hb]

/-- Claim C6 witness: a weakly descending pair runs the pipeline, an
ascending pair raises the ordering error. -/
theorem C6_witness :
    parse_session [(5 : Int), 3] [] [] [] [] (fun _ => []) [] [] "t"
      = session_pipeline [] [] [] [] (fun _ => []) [] [] "t"
    ∧ parse_session [(3 : Int), 5] [] [] [] [] (fun _ => []) [] [] "t"
      = Except.error PyErr.valueError :=
  ⟨(C6_ordering_check [5, 3] [] [] [] [] (fun _ => []) [] [] "t").1
      (by norm_num [List.chain'_cons]),
   (C6_ordering_check [3, 5] [] [] [] [] (fun _ => []) [] [] "t").2
      (by norm_num [List.chain'_cons])⟩

theorem zipWith_map_self {α β γ : Type} (f : β → α → γ) (g : α → β) (l : List α) :
    List.zipWith f (l.map g) l = l.map (fun a => f (g a) a) := by
  induction l with
  | nil => rfl
  | cons x xs ih => simp [ih]

theorem zip_self_map {α β : Type} (l : List α) (f : α → β) :
    l.zip (l.map f) = l.map (fun a => (a, f a)) := by
  induction l with
  | nil => rfl
  | cons x xs ih => simp [ih]

theorem cteLoop_ok_char (pm : List Row) (la : List Assessor)
    (h : ∀ a ∈ la, a.inputsR ≠ none) (g : Row → List Assessor) :
    cteLoop pm la (pm.map g)
      = some (pm.map (fun p => g p ++ la.filter (fun a => rowMatches a p))) := by
  induction la generalizing g with
  | nil => simp [cteLoop]
  | cons casr rest ih =>
    cases hc : casr.inputsR with
    | none => exact absurd hc (h casr (by simp))
    | some inp =>
      simp only [cteLoop, hc]
      rw [zipWith_map_self]
      rw [ih (fun a ha => h a (by simp [ha]))
        (fun p => if dictEq (decodeRow inp) p then g p ++ [casr] else g p)]
      apply congrArg
      apply List.map_congr_left
      intro p _
      by_cases hde : dictEq (decodeRow inp) p = true
      · simp [hde, List.filter_cons, rowMatches, hc, List.append_assoc]
      · simp [hde, List.filter_cons, rowMatches, hc]

/-- Claim C7: when every assessor of the target work-type has a retrievable
recorded input mapping, compare_to_existing produces exactly one entry per
candidate row, pairing the row with all assessors whose recorded mapping is
structurally equal to it as a whole dict; the dict equality is exact, so the
recorded mapping binding only T1 matches the row binding only T1 but not the
row that additionally binds T2. -/
theorem C7_exact_reconciliation (asrs : List Assessor) (proc : String)
    (pm : List Row)
    (h : ∀ a ∈ asrs, a.atype = proc → a.inputsR ≠ none) :
    compare_to_existing asrs proc pm
      = pm.map (fun p => (p, (asrs.filter (fun a => a.atype == proc)).filter
          (fun a => rowMatches a p)))
    ∧ dictEq (decodeRow [("T1", "p1")]) [("T1", PyVal.str "p1")] = true
    ∧ dictEq (decodeRow [("T1", "p1")])
        [("T1", PyVal.str "p1"), ("T2", PyVal.str "p2")] = false := by
  refine ⟨?_, by decide, by decide⟩
  unfold compare_to_existing
  rw [cteLoop_ok_char pm (asrs.filter (fun a => a.atype == proc))
    (fun a ha => h a (List.mem_filter.mp ha).1
      (by have hb := (List.mem_filter.mp ha).2; simpa using hb))
    (fun _ => [])]
  simp only [List.nil_append]
  rw [zip_self_map]

/-- Claim C7 witness: one row, three assessors of which two have the target
type; only the structurally equal mapping is paired. -/
theorem C7_witness :
    compare_to_existing
        [⟨"proc1", "asr1", some [("T1", "p1")]⟩,
         ⟨"proc1", "asr2", some [("T1", "p1"), ("T2", "p2")]⟩,
         ⟨"other", "asr3", some [("T1", "p1")]⟩]
        "proc1" [[("T1", PyVal.str "p1")]]
      = [([("T1", PyVal.str "p1")], [⟨"proc1", "asr1", some [("T1", "p1")]⟩])] :=
  (C7_exact_reconciliation
    [⟨"proc1", "asr1", some [("T1", "p1")]⟩,
     ⟨"proc1", "asr2", some [("T1", "p1"), ("T2", "p2")]⟩,
     ⟨"other", "asr3", some [("T1", "p1")]⟩]
    "proc1" [[("T1", PyVal.str "p1")]] (by decide)).1

/-- Claim C8: if any assessor of the target work-type has no retrievable
recorded input mapping, compare_to_existing returns the empty list for the
whole invocation, pairing no rows at all. -/
theorem C8_fail_closed (asrs : List Assessor) (proc : String) (pm : List Row)
    (h : ∃ a ∈ asrs, a.atype = proc ∧ a.inputsR = none) :
    compare_to_existing asrs proc pm = [] := by
  unfold compare_to_existing
  have hmem : ∃ a ∈ asrs.filter (fun a => a.atype == proc),
      a.inputsR = none := by
    obtain ⟨a, ha, h1, h2⟩ := h
    exact ⟨a, List.mem_filter.mpr ⟨ha, by simp [h1]⟩, h2⟩
  have hnone : ∀ (la : List Assessor) (acc : List (List Assessor)),
      (∃ a ∈ la, a.inputsR = none) → cteLoop pm la acc = none := by
    intro la
    induction la with
    | nil =>
      intro acc h0
      simp at h0
    | cons c rest ih =>
      intro acc h0
      cases hc : c.inputsR with
      | none => simp [cteLoop, hc]
      | some inp =>
        simp only [cteLoop, hc]
        apply ih
        obtain ⟨a, ha, h2⟩ := h0
        rcases List.mem_cons.mp ha with hh | hrest
        · rw [hh, hc] at h2
          exact absurd h2 (Option.some_ne_none inp)
        · exact ⟨a, hrest, h2⟩
  rw [hnone _ _ hmem]

/-- Claim C8 witness: one matching assessor with a mapping and one with a
missing mapping give the empty reconciliation result, discarding the match
that was already found. -/
theorem C8_witness :
    compare_to_existing
        [⟨"proc1", "asr1", some [("T1", "p1")]⟩, ⟨"proc1", "asrB", none⟩]
        "proc1" [[("T1", PyVal.str "p1")]] = [] :=
  C8_fail_closed
    [⟨"proc1", "asr1", some [("T1", "p1")]⟩, ⟨"proc1", "asrB", none⟩]
    "proc1" [[("T1", PyVal.str "p1")]]
    ⟨⟨"proc1", "asrB", none⟩, by simp, rfl, rfl⟩
